import Mathlib

/-!
Verification development for the `wolt_markets` repository.

The repository contains two scraper scripts, `scripts/markets.py` and
`scripts/markets_baku.py`.  Both define a class `WoltMarketsScraper` with an
HTTP gateway `make_request`, a normalizer `extract_items_from_venue`, and an
orchestrator (`scrape_all_markets` resp. `scrape_markets`).

This file is a shallow embedding of those functions.  JSON documents are
modelled by the inductive `Json`; the dynamic (duck-typed) Python operations
used by the scripts (`dict.get`, subscription, truthiness, iteration,
`','.join`, arithmetic coercion, comparison with `0`) are modelled by small
total Lean functions returning `Except PyErr` where the Python operation can
raise.  Caveats of the model, each noted where it applies:
  * JSON objects produced by `json.loads` have unique string keys; object
    lookup takes the first binding with the key.
  * Python cross-type numeric equality (`True == 1`) for dict keys is not
    modelled; no claim exercises it.
  * `round(x, 2)` on Python floats (round-half-to-even on a binary float) is
    modelled by exact rational rounding `round2`; the two agree within the
    tolerance 1e-2 stated by the specification.
  * `datetime.now()` is abstracted as an explicit `now : String` argument.
-/

/-- A JSON value, as produced by `json.loads`. -/
inductive Json where
  | null
  | bool (b : Bool)
  | num (q : ℚ)
  | str (s : String)
  | arr (elems : List Json)
  | obj (fields : List (String × Json))

/-- The Python exceptions the modelled code can raise. -/
inductive PyErr where
  | keyError
  | typeError
  | attributeError
  | indexError
  | valueError
deriving DecidableEq

/-- First binding of key `k` in an association list (keys from `json.loads`
are unique, so first = only). -/
def assocFind (kvs : List (String × Json)) (k : String) : Option Json :=
  (kvs.find? (fun p => p.1 == k)).map (fun p => p.2)

/-- Python truthiness of a JSON value: `None`, `False`, `0`, `''`, `[]`, and
an empty dict are falsy, everything else is truthy. -/
def truthy : Json → Bool
  | .null => false
  | .bool b => b
  | .num q => q != 0
  | .str s => s != ""
  | .arr xs => !xs.isEmpty
  | .obj kvs => !kvs.isEmpty

/-- Python `d.get(k, default)`: on a dict, the value at `k` or the default;
on any non-dict value the attribute access `.get` raises `AttributeError`. -/
def pyGetD (j : Json) (k : String) (d : Json) : Except PyErr Json :=
  match j with
  | .obj kvs => .ok ((assocFind kvs k).getD d)
  | _ => .error .attributeError

/-- Python `d.get(k)` (one-argument form, default `None`). -/
def pyGet1 (j : Json) (k : String) : Except PyErr Json :=
  pyGetD j k .null

/-- Python subscription `d[k]` with a string key: `KeyError` on a dict
missing the key, `TypeError` on values that cannot be subscripted by a
string. -/
def pySubscr (j : Json) (k : String) : Except PyErr Json :=
  match j with
  | .obj kvs =>
    match assocFind kvs k with
    | some v => .ok v
    | none => .error .keyError
  | _ => .error .typeError

/-- Python subscription `x[0]`.  A dict is subscripted with the int key `0`,
which is never present since JSON object keys are strings, hence
`KeyError`. -/
def pyIndex0 : Json → Except PyErr Json
  | .arr (x :: _) => .ok x
  | .arr [] => .error .indexError
  | .str s =>
    match s.toList with
    | c :: _ => .ok (.str c.toString)
    | [] => .error .indexError
  | .obj _ => .error .keyError
  | _ => .error .typeError

/-- Python subscription `x[1]` (used for `market.get('location', [0,0])[1]`). -/
def pyIndex1 : Json → Except PyErr Json
  | .arr (_ :: y :: _) => .ok y
  | .arr _ => .error .indexError
  | .str s =>
    match s.toList with
    | _ :: c :: _ => .ok (.str c.toString)
    | _ => .error .indexError
  | .obj _ => .error .keyError
  | _ => .error .typeError

/-- Python iteration `for x in v`: lists yield elements, strings yield
one-character strings, dicts yield their keys, everything else raises
`TypeError`. -/
def pyIter : Json → Except PyErr (List Json)
  | .arr xs => .ok xs
  | .str s => .ok (s.toList.map (fun c => Json.str c.toString))
  | .obj kvs => .ok (kvs.map (fun p => Json.str p.1))
  | _ => .error .typeError

/-- Coercion of a JSON value to a number for Python arithmetic; `bool` is an
`int` in Python, everything non-numeric raises `TypeError`. -/
def asNum : Json → Except PyErr ℚ
  | .num q => .ok q
  | .bool b => .ok (if b then 1 else 0)
  | _ => .error .typeError

/-- Python comparison `v > 0`; non-numeric values raise `TypeError`. -/
def pyGt0 : Json → Except PyErr Bool
  | .num q => .ok (decide (0 < q))
  | .bool b => .ok b
  | _ => .error .typeError

/-- Python `str(v)`.  Only the string case is exercised by any claim; the
rendering of numbers and containers is an approximation. -/
def pyStr : Json → String
  | .null => "None"
  | .bool true => "True"
  | .bool false => "False"
  | .num q => toString q
  | .str s => s
  | .arr _ => "<list>"
  | .obj _ => "<dict>"

/-- Checks element by element that every joined value is a string, as
CPython's `str.join` does, raising `TypeError` at the first non-string. -/
def pyStrList : List Json → Except PyErr (List String)
  | [] => .ok []
  | .str s :: rest => do
    let ss ← pyStrList rest
    pure (s :: ss)
  | _ :: _ => .error .typeError

/-- Python `','.join(xs)`. -/
def pyJoinStrs (xs : List Json) : Except PyErr String := do
  let ss ← pyStrList xs
  pure (String.intercalate "," ss)

/-- Python `round(x, 2)` modelled over exact rationals.  Python rounds the
binary float half-to-even; this rational model rounds half away from the
even convention only at exact ties, which the specification covers by its
stated tolerance of 1e-2. -/
def round2 (x : ℚ) : ℚ := ((round (x * 100) : ℤ) : ℚ) / 100

/-- Effectful map over a list in `Except`, short-circuiting at the first
error, in element order — the translation of a Python `for` loop that
appends one result per iteration. -/
def exList {α β : Type} (f : α → Except PyErr β) : List α → Except PyErr (List β)
  | [] => .ok []
  | a :: as => do
    let b ← f a
    let bs ← exList f as
    pure (b :: bs)

/-!
Per-field extraction expressions shared verbatim by
`markets.py::extract_items_from_venue` (lines 150-187) and
`markets_baku.py::extract_items_from_venue` (lines 141-177).  Each helper is
the translation of one value expression of the Python item dict; the order
of the monadic binds inside each helper follows Python evaluation order
(condition of a conditional expression first, then the chosen branch, left
operand before right operand).
-/

/-- `item_data.get('price', 0) / 100`. -/
def fPrice (d : Json) : Except PyErr ℚ := do
  let v ← pyGetD d "price" (.num 0)
  let q ← asNum v
  pure (q / 100)

/-- `item_data.get('original_price', 0) / 100 if item_data.get('original_price') else None`. -/
def fOriginalPrice (d : Json) : Except PyErr (Option ℚ) := do
  let g ← pyGet1 d "original_price"
  if truthy g then
    let v ← pyGetD d "original_price" (.num 0)
    let q ← asNum v
    pure (some (q / 100))
  else
    pure none

/-- `(item_data.get('original_price', 0) - item_data.get('price', 0)) / 100
if item_data.get('original_price') else 0`. -/
def fDiscountAmount (d : Json) : Except PyErr ℚ := do
  let g ← pyGet1 d "original_price"
  if truthy g then
    let o ← asNum (← pyGetD d "original_price" (.num 0))
    let p ← asNum (← pyGetD d "price" (.num 0))
    pure ((o - p) / 100)
  else
    pure 0

/-- `round(((item_data.get('original_price', 0) - item_data.get('price', 0))
/ item_data.get('original_price', 1)) * 100, 2) if
item_data.get('original_price') and item_data.get('original_price') > 0
else 0`.  The guard re-reads the key for the `> 0` comparison, as the source
does. -/
def fDiscountPercentage (d : Json) : Except PyErr ℚ := do
  let g ← pyGet1 d "original_price"
  if truthy g then
    let g2 ← pyGet1 d "original_price"
    let gtz ← pyGt0 g2
    if gtz then
      let o ← asNum (← pyGetD d "original_price" (.num 0))
      let p ← asNum (← pyGetD d "price" (.num 0))
      let den ← asNum (← pyGetD d "original_price" (.num 1))
      pure (round2 ((o - p) / den * 100))
    else
      pure 0
  else
    pure 0

/-- `item_data.get('unit_price', {}).get('price', 0) / 100 if
item_data.get('unit_price') else None`. -/
def fUnitPriceValue (d : Json) : Except PyErr (Option ℚ) := do
  let g ← pyGet1 d "unit_price"
  if truthy g then
    let up ← pyGetD d "unit_price" (.obj [])
    let v ← pyGetD up "price" (.num 0)
    let q ← asNum v
    pure (some (q / 100))
  else
    pure none

/-- `item_data.get('unit_price', {}).get('base', 0) if
item_data.get('unit_price') else None`. -/
def fUnitPriceBase (d : Json) : Except PyErr (Option Json) := do
  let g ← pyGet1 d "unit_price"
  if truthy g then
    let up ← pyGetD d "unit_price" (.obj [])
    let v ← pyGetD up "base" (.num 0)
    pure (some v)
  else
    pure none

/-- `item_data.get('unit_price', {}).get('unit', '') if
item_data.get('unit_price') else ''`. -/
def fUnitPriceUnit (d : Json) : Except PyErr Json := do
  let g ← pyGet1 d "unit_price"
  if truthy g then
    let up ← pyGetD d "unit_price" (.obj [])
    pyGetD up "unit" (.str "")
  else
    pure (.str "")

/-- `item_data.get('images', [{}])[0].get('url', '') if
item_data.get('images') else ''`. -/
def fImageUrl (d : Json) : Except PyErr Json := do
  let g ← pyGet1 d "images"
  if truthy g then
    let imgs ← pyGetD d "images" (.arr [.obj []])
    let first ← pyIndex0 imgs
    pyGetD first "url" (.str "")
  else
    pure (.str "")

/-- `item_data.get('images', [{}])[0].get('blurhash', '') if
item_data.get('images') else ''`. -/
def fImageBlurhash (d : Json) : Except PyErr Json := do
  let g ← pyGet1 d "images"
  if truthy g then
    let imgs ← pyGetD d "images" (.arr [.obj []])
    let first ← pyIndex0 imgs
    pyGetD first "blurhash" (.str "")
  else
    pure (.str "")

/-- `not item_data.get('disabled_info')`. -/
def fIsAvailable (d : Json) : Except PyErr Bool := do
  let v ← pyGet1 d "disabled_info"
  pure (!truthy v)

/-- `','.join(item_data.get('tags', []))` — `markets.py` line 181; elements
are joined as-is, so a non-string element raises `TypeError`. -/
def fTagsMarkets (d : Json) : Except PyErr String := do
  let v ← pyGetD d "tags" (.arr [])
  let xs ← pyIter v
  pyJoinStrs xs

/-- `','.join(item_data.get('dietary_preferences', []))` — `markets.py`
line 180. -/
def fDietaryMarkets (d : Json) : Except PyErr String := do
  let v ← pyGetD d "dietary_preferences" (.arr [])
  let xs ← pyIter v
  pyJoinStrs xs

/-- One element of the `markets_baku.py` line 171 comprehension:
`tag.get('id', '') if isinstance(tag, dict) else str(tag)`. -/
def coerceTagBaku (tag : Json) : Json :=
  match tag with
  | .obj kvs => (assocFind kvs "id").getD (.str "")
  | t => .str (pyStr t)

/-- `','.join([tag.get('id', '') if isinstance(tag, dict) else str(tag) for
tag in item_data.get('tags', [])])` — `markets_baku.py` line 171. -/
def fTagsBaku (d : Json) : Except PyErr String := do
  let v ← pyGetD d "tags" (.arr [])
  let xs ← pyIter v
  pyJoinStrs (xs.map coerceTagBaku)

/-- One element of the `markets_baku.py` line 170 comprehension:
`pref if isinstance(pref, str) else pref.get('id', '')`; a value that is
neither a string nor a dict raises `AttributeError` at `.get`. -/
def coerceDietaryBaku (pref : Json) : Except PyErr Json :=
  match pref with
  | .str s => .ok (.str s)
  | .obj kvs => .ok ((assocFind kvs "id").getD (.str ""))
  | _ => .error .attributeError

/-- `','.join([pref if isinstance(pref, str) else pref.get('id', '') for
pref in item_data.get('dietary_preferences', [])])` — `markets_baku.py`
line 170. -/
def fDietaryBaku (d : Json) : Except PyErr String := do
  let v ← pyGetD d "dietary_preferences" (.arr [])
  let xs ← pyIter v
  let cs ← exList coerceDietaryBaku xs
  pyJoinStrs cs

/-!
The item records.  `markets.py` builds a dict with 36 keys (it includes
`category_id`); `markets_baku.py` builds the same dict minus `category_id`
and with the polymorphic tag coercions.  Field types follow the value
expressions: currency values are `ℚ`, guarded-optional values are `Option`,
plain `get` results stay `Json`.
-/

/-- The item dict of `markets.py::extract_items_from_venue`, lines 150-187. -/
structure ItemA where
  item_id : Json
  venue_id : Json
  venue_name : Json
  venue_slug : Json
  city : Json
  city_slug : Json
  category_id : Json
  section_name : Json
  section_slug : Json
  name : Json
  description : Json
  price : ℚ
  original_price : Option ℚ
  discount_amount : ℚ
  discount_percentage : ℚ
  unit_info : Json
  unit_price_value : Option ℚ
  unit_price_base : Option Json
  unit_price_unit : Json
  barcode_gtin : Json
  image_url : Json
  image_blurhash : Json
  purchasable_balance : Json
  quantity_left : Json
  max_quantity_per_purchase : Json
  min_quantity_per_purchase : Json
  alcohol_permille : Json
  caffeine_info : Json
  vat_percentage : Json
  dietary_preferences : String
  tags : String
  is_available : Bool
  is_wolt_plus_only : Json
  is_cutlery : Json
  deposit : Json
  scraped_at : String

/-- The item dict of `markets_baku.py::extract_items_from_venue`,
lines 141-177 (no `category_id`). -/
structure ItemB where
  item_id : Json
  venue_id : Json
  venue_name : Json
  venue_slug : Json
  city : Json
  city_slug : Json
  section_name : Json
  section_slug : Json
  name : Json
  description : Json
  price : ℚ
  original_price : Option ℚ
  discount_amount : ℚ
  discount_percentage : ℚ
  unit_info : Json
  unit_price_value : Option ℚ
  unit_price_base : Option Json
  unit_price_unit : Json
  barcode_gtin : Json
  image_url : Json
  image_blurhash : Json
  purchasable_balance : Json
  quantity_left : Json
  max_quantity_per_purchase : Json
  min_quantity_per_purchase : Json
  alcohol_permille : Json
  caffeine_info : Json
  vat_percentage : Json
  dietary_preferences : String
  tags : String
  is_available : Bool
  is_wolt_plus_only : Json
  is_cutlery : Json
  deposit : Json
  scraped_at : String

/-- Builds one `ItemA` from `item_data`, in the field order of the source
dict literal (so an exception surfaces at the same field as in Python).
`category_id`, `section_name`, `section_slug` were computed by the enclosing
loops; `now` stands for `datetime.now().isoformat()`. -/
def mkItemA (item_data venue_info : Json) (category_id section_name section_slug : Json)
    (now : String) : Except PyErr ItemA := do
  let item_id ← pyGetD item_data "id" (.str "")
  let venue_id ← pyGetD venue_info "id" (.str "")
  let venue_name ← pyGetD venue_info "name" (.str "")
  let venue_slug ← pyGetD venue_info "slug" (.str "")
  let city ← pyGetD venue_info "city_name" (.str "")
  let city_slug ← pyGetD venue_info "city_slug" (.str "")
  let name ← pyGetD item_data "name" (.str "")
  let description ← pyGetD item_data "description" (.str "")
  let price ← fPrice item_data
  let original_price ← fOriginalPrice item_data
  let discount_amount ← fDiscountAmount item_data
  let discount_percentage ← fDiscountPercentage item_data
  let unit_info ← pyGetD item_data "unit_info" (.str "")
  let unit_price_value ← fUnitPriceValue item_data
  let unit_price_base ← fUnitPriceBase item_data
  let unit_price_unit ← fUnitPriceUnit item_data
  let barcode_gtin ← pyGetD item_data "barcode_gtin" (.str "")
  let image_url ← fImageUrl item_data
  let image_blurhash ← fImageBlurhash item_data
  let purchasable_balance ← pyGetD item_data "purchasable_balance" .null
  let quantity_left ← pyGetD item_data "quantity_left" .null
  let max_quantity_per_purchase ← pyGetD item_data "max_quantity_per_purchase" .null
  let min_quantity_per_purchase ← pyGetD item_data "min_quantity_per_purchase" .null
  let alcohol_permille ← pyGetD item_data "alcohol_permille" (.num 0)
  let caffeine_info ← pyGetD item_data "caffeine_info" (.str "")
  let vat_percentage ← pyGetD item_data "vat_percentage" (.num 0)
  let dietary_preferences ← fDietaryMarkets item_data
  let tags ← fTagsMarkets item_data
  let is_available ← fIsAvailable item_data
  let is_wolt_plus_only ← pyGetD item_data "is_wolt_plus_only" (.bool false)
  let is_cutlery ← pyGetD item_data "is_cutlery" (.bool false)
  let deposit ← pyGetD item_data "deposit" .null
  pure {
    item_id := item_id, venue_id := venue_id, venue_name := venue_name,
    venue_slug := venue_slug, city := city, city_slug := city_slug,
    category_id := category_id, section_name := section_name,
    section_slug := section_slug, name := name, description := description,
    price := price, original_price := original_price,
    discount_amount := discount_amount, discount_percentage := discount_percentage,
    unit_info := unit_info, unit_price_value := unit_price_value,
    unit_price_base := unit_price_base, unit_price_unit := unit_price_unit,
    barcode_gtin := barcode_gtin, image_url := image_url,
    image_blurhash := image_blurhash, purchasable_balance := purchasable_balance,
    quantity_left := quantity_left,
    max_quantity_per_purchase := max_quantity_per_purchase,
    min_quantity_per_purchase := min_quantity_per_purchase,
    alcohol_permille := alcohol_permille, caffeine_info := caffeine_info,
    vat_percentage := vat_percentage, dietary_preferences := dietary_preferences,
    tags := tags, is_available := is_available,
    is_wolt_plus_only := is_wolt_plus_only, is_cutlery := is_cutlery,
    deposit := deposit, scraped_at := now }

/-- Builds one `ItemB` from `item_data`, in the field order of the
`markets_baku.py` dict literal. -/
def mkItemB (item_data venue_info : Json) (section_name section_slug : Json)
    (now : String) : Except PyErr ItemB := do
  let item_id ← pyGetD item_data "id" (.str "")
  let venue_id ← pyGetD venue_info "id" (.str "")
  let venue_name ← pyGetD venue_info "name" (.str "")
  let venue_slug ← pyGetD venue_info "slug" (.str "")
  let city ← pyGetD venue_info "city_name" (.str "")
  let city_slug ← pyGetD venue_info "city_slug" (.str "")
  let name ← pyGetD item_data "name" (.str "")
  let description ← pyGetD item_data "description" (.str "")
  let price ← fPrice item_data
  let original_price ← fOriginalPrice item_data
  let discount_amount ← fDiscountAmount item_data
  let discount_percentage ← fDiscountPercentage item_data
  let unit_info ← pyGetD item_data "unit_info" (.str "")
  let unit_price_value ← fUnitPriceValue item_data
  let unit_price_base ← fUnitPriceBase item_data
  let unit_price_unit ← fUnitPriceUnit item_data
  let barcode_gtin ← pyGetD item_data "barcode_gtin" (.str "")
  let image_url ← fImageUrl item_data
  let image_blurhash ← fImageBlurhash item_data
  let purchasable_balance ← pyGetD item_data "purchasable_balance" .null
  let quantity_left ← pyGetD item_data "quantity_left" .null
  let max_quantity_per_purchase ← pyGetD item_data "max_quantity_per_purchase" .null
  let min_quantity_per_purchase ← pyGetD item_data "min_quantity_per_purchase" .null
  let alcohol_permille ← pyGetD item_data "alcohol_permille" (.num 0)
  let caffeine_info ← pyGetD item_data "caffeine_info" (.str "")
  let vat_percentage ← pyGetD item_data "vat_percentage" (.num 0)
  let dietary_preferences ← fDietaryBaku item_data
  let tags ← fTagsBaku item_data
  let is_available ← fIsAvailable item_data
  let is_wolt_plus_only ← pyGetD item_data "is_wolt_plus_only" (.bool false)
  let is_cutlery ← pyGetD item_data "is_cutlery" (.bool false)
  let deposit ← pyGetD item_data "deposit" .null
  pure {
    item_id := item_id, venue_id := venue_id, venue_name := venue_name,
    venue_slug := venue_slug, city := city, city_slug := city_slug,
    section_name := section_name, section_slug := section_slug,
    name := name, description := description,
    price := price, original_price := original_price,
    discount_amount := discount_amount, discount_percentage := discount_percentage,
    unit_info := unit_info, unit_price_value := unit_price_value,
    unit_price_base := unit_price_base, unit_price_unit := unit_price_unit,
    barcode_gtin := barcode_gtin, image_url := image_url,
    image_blurhash := image_blurhash, purchasable_balance := purchasable_balance,
    quantity_left := quantity_left,
    max_quantity_per_purchase := max_quantity_per_purchase,
    min_quantity_per_purchase := min_quantity_per_purchase,
    alcohol_permille := alcohol_permille, caffeine_info := caffeine_info,
    vat_percentage := vat_percentage, dietary_preferences := dietary_preferences,
    tags := tags, is_available := is_available,
    is_wolt_plus_only := is_wolt_plus_only, is_cutlery := is_cutlery,
    deposit := deposit, scraped_at := now }

/-!
The items dict of `markets.py` line 134:
`items_dict = {item['id']: item for item in all_items_data}`.
Keys can be any hashable value; an entry whose `id` is a list or dict is
unhashable and raises `TypeError`, an entry without an `id` key raises
`KeyError`, a non-dict entry raises `TypeError` at the subscription.
Later entries override earlier ones, as in a Python dict build.
-/

/-- Equality of hashable (scalar) JSON values, as used for dict keys.
Python cross-type equalities such as `True == 1` are not modelled; the
repository only ever keys items by their string ids. -/
def scalarEq (a b : Json) : Bool :=
  match a, b with
  | .null, .null => true
  | .bool x, .bool y => x == y
  | .num x, .num y => x == y
  | .str x, .str y => x == y
  | _, _ => false

/-- Builds the `items_dict` association (insertion order, later wins on
lookup). -/
def buildItemsDict (pool : List Json) : Except PyErr (List (Json × Json)) :=
  exList (fun item => do
    let k ← pySubscr item "id"
    match k with
    | .arr _ => Except.error PyErr.typeError
    | .obj _ => Except.error PyErr.typeError
    | _ => pure (k, item)) pool

/-- `item_id in items_dict` followed by `items_dict[item_id]`: an unhashable
probe key raises `TypeError`; otherwise the value of the last binding with
that key (Python dict assignment overwrites). -/
def dictLookup (kvs : List (Json × Json)) (k : Json) : Except PyErr (Option Json) :=
  match k with
  | .arr _ => .error .typeError
  | .obj _ => .error .typeError
  | _ => .ok (((kvs.reverse).find? (fun p => scalarEq p.1 k)).map (fun p => p.2))

namespace Markets

/-- `markets.py::extract_items_from_venue` (lines 124-192): builds the
id-to-item dict from the top-level `items` pool, then walks
sections → categories → `item_ids`, resolving every id against the dict and
skipping ids with no match.  There is no inline-items walk. -/
def extract_items_from_venue (venue_data venue_info : Json) (now : String) :
    Except PyErr (List ItemA) :=
  if !truthy venue_data then .ok []
  else do
    let venue_sections ← pyGetD venue_data "sections" (.arr [])
    let all_items_data ← pyGetD venue_data "items" (.arr [])
    let pool ← pyIter all_items_data
    let items_dict ← buildItemsDict pool
    let ss ← pyIter venue_sections
    let groups ← exList (fun s => do
      let section_name ← pyGetD s "name" (.str "")
      let section_slug ← pyGetD s "slug" (.str "")
      let cats ← pyIter (← pyGetD s "categories" (.arr []))
      let catGroups ← exList (fun category => do
        let category_id ← pyGetD category "id" (.str "")
        let item_ids ← pyIter (← pyGetD category "item_ids" (.arr []))
        let per ← exList (fun item_id => do
          let found ← dictLookup items_dict item_id
          match found with
          | some item_data => do
            let it ← mkItemA item_data venue_info category_id section_name section_slug now
            pure [it]
          | none => pure ([] : List ItemA)) item_ids
        pure per.flatten) cats
      pure catGroups.flatten) ss
    pure groups.flatten

end Markets

namespace Baku

/-- `markets_baku.py::extract_items_from_venue` (lines 119-182): walks
sections and the items embedded directly in each section.  There is no
id-lookup walk; an empty or missing `sections` value returns the empty
list at once. -/
def extract_items_from_venue (venue_data venue_info : Json) (now : String) :
    Except PyErr (List ItemB) :=
  if !truthy venue_data then .ok []
  else do
    let venue_sections ← pyGetD venue_data "sections" (.arr [])
    if !truthy venue_sections then pure []
    else do
      let ss ← pyIter venue_sections
      let groups ← exList (fun s => do
        let section_name ← pyGetD s "name" (.str "")
        let section_slug ← pyGetD s "slug" (.str "")
        let section_items ← pyIter (← pyGetD s "items" (.arr []))
        exList (fun item_data =>
          mkItemB item_data venue_info section_name section_slug now) section_items) ss
      pure groups.flatten

end Baku

/-!
The HTTP gateway `make_request` (identical in both scripts, lines 58-77).
The transport is abstracted as an `HttpOutcome`: either the underlying
`session.get/post` call raised a `requests.exceptions.RequestException`
(connection error, timeout, redirect overflow, ...) or it produced a final
response with a status code and a body whose JSON decode either succeeded
(`some` document) or failed (`none`).  `response.raise_for_status()` raises
`HTTPError` — a `RequestException` — exactly for status codes 400-599.
The fixed `time.sleep(0.5)` rate-limit delay has no effect on the returned
value and is not modelled.
-/

/-- Outcome of the underlying HTTP transport call. -/
inductive HttpOutcome where
  | requestError
  | response (status : Nat) (body : Option Json)

/-- Python `method.upper()` (character-wise ASCII uppercasing, exact for
the method names involved). -/
def pyUpper (s : String) : String := String.mk (s.data.map Char.toUpper)

/-- `make_request` (both scripts, lines 58-77): dispatches on the upper-cased
method, raises `ValueError` for unsupported methods, converts every caught
`RequestException` or JSON decode failure into `None`. -/
def make_request (method : String) (outcome : HttpOutcome) : Except PyErr (Option Json) :=
  if pyUpper method == "GET" || pyUpper method == "POST" then
    match outcome with
    | .requestError => .ok none
    | .response status body =>
      if 400 ≤ status ∧ status < 600 then .ok none
      else
        match body with
        | some j => .ok (some j)
        | none => .ok none
  else
    .error .valueError

/-!
The orchestrator `markets_baku.py::scrape_markets` (lines 184-241), from the
point where discovery has produced the `markets` list.  The venue-details
fetch is abstracted as an oracle `fetch : Json → Option Json` (`none` is the
gateway returning `None`).  The loop appends one market record per market
and, only when the fetched venue document is truthy, the extracted items;
the accumulation is modelled by structural recursion producing the same
lists in the same order.
-/

/-- The market dict of `markets_baku.py` lines 209-230. -/
structure MarketRec where
  venue_id : Json
  name : Json
  slug : Json
  address : Json
  city : String
  city_slug : String
  country : Json
  latitude : Json
  longitude : Json
  rating_score : Json
  rating_volume : Json
  price_range : Json
  online : Json
  delivers : Json
  delivery_price : ℚ
  estimate_minutes : Json
  estimate_range : Json
  short_description : Json
  tags : String
  scraped_at : String

/-- Builds one `MarketRec`, in the field order of the source dict literal.
`market_slug` and `market_name` were read just before (lines 205-206). -/
def mkMarketRecord (market : Json) (market_slug market_name : Json)
    (city_name city_slug : String) (now : String) : Except PyErr MarketRec := do
  let venue_id ← pyGetD market "id" (.str "")
  let address ← pyGetD market "address" (.str "")
  let country ← pyGetD market "country" (.str "")
  let loc1 ← pyGetD market "location" (.arr [.num 0, .num 0])
  let latitude ← pyIndex1 loc1
  let loc2 ← pyGetD market "location" (.arr [.num 0, .num 0])
  let longitude ← pyIndex0 loc2
  let r1 ← pyGetD market "rating" (.obj [])
  let rating_score ← pyGetD r1 "score" .null
  let r2 ← pyGetD market "rating" (.obj [])
  let rating_volume ← pyGetD r2 "volume" .null
  let price_range ← pyGetD market "price_range" .null
  let online ← pyGetD market "online" (.bool false)
  let delivers ← pyGetD market "delivers" (.bool false)
  let dp ← pyGetD market "delivery_price_int" (.num 0)
  let dpq ← asNum dp
  let estimate_minutes ← pyGetD market "estimate" (.num 0)
  let estimate_range ← pyGetD market "estimate_range" (.str "")
  let short_description ← pyGetD market "short_description" (.str "")
  let tagsV ← pyGetD market "tags" (.arr [])
  let tagsL ← pyIter tagsV
  let tags ← pyJoinStrs tagsL
  pure {
    venue_id := venue_id, name := market_name, slug := market_slug,
    address := address, city := city_name, city_slug := city_slug,
    country := country, latitude := latitude, longitude := longitude,
    rating_score := rating_score, rating_volume := rating_volume,
    price_range := price_range, online := online, delivers := delivers,
    delivery_price := dpq / 100, estimate_minutes := estimate_minutes,
    estimate_range := estimate_range, short_description := short_description,
    tags := tags, scraped_at := now }

namespace Baku

/-- One loop iteration of `scrape_markets` restricted to the record part:
read `slug` and `name`, then build the market record. -/
def venueStep (city_name city_slug now : String) (market : Json) :
    Except PyErr MarketRec := do
  let market_slug ← pyGetD market "slug" (.str "")
  let market_name ← pyGetD market "name" (.str "")
  mkMarketRecord market market_slug market_name city_name city_slug now

/-- Lines 234-239 of `markets_baku.py`: fetch the venue document for a slug
and, if it is truthy, extract its items; a failed (`none`) or falsy fetch
contributes no items. -/
def venueDetailsBranch (fetch : Json → Option Json) (now : String)
    (market market_slug : Json) : Except PyErr (List ItemB) :=
  match fetch market_slug with
  | some venue_details =>
    if truthy venue_details then
      extract_items_from_venue venue_details market now
    else
      pure []
  | none => pure []

/-- One loop iteration of `scrape_markets` restricted to the items part:
read the slug, then run the fetch-and-extract branch. -/
def venueContribution (fetch : Json → Option Json) (now : String) (market : Json) :
    Except PyErr (List ItemB) := do
  let market_slug ← pyGetD market "slug" (.str "")
  venueDetailsBranch fetch now market market_slug

/-- `markets_baku.py::scrape_markets` (lines 184-241) from the discovered
`markets` list on: per market, append the market record, fetch the venue
document, and extend the item list when the document is truthy.  The
`if not markets: return` early exit coincides with the empty-list base
case. -/
def scrape_markets (markets : List Json) (fetch : Json → Option Json)
    (city_name city_slug now : String) :
    Except PyErr (List MarketRec × List ItemB) :=
  match markets with
  | [] => .ok ([], [])
  | market :: rest => do
    let market_slug ← pyGetD market "slug" (.str "")
    let market_name ← pyGetD market "name" (.str "")
    let market_data ← mkMarketRecord market market_slug market_name city_name city_slug now
    let contrib ← venueDetailsBranch fetch now market market_slug
    let (ms, its) ← scrape_markets rest fetch city_name city_slug now
    pure (market_data :: ms, contrib ++ its)

end Baku

/-! Lemmas about the `Except` monad used to take computations apart. -/

/-! Concrete documents and items used by the claim theorems below. -/

/-- A concrete discounted item: minor-unit price 80, original price 100. -/
def itemC2kvs : List (String × Json) :=
  [("price", .num 80), ("original_price", .num 100)]

/-- A concrete item with original price 100 below its price 200. -/
def itemC3kvs : List (String × Json) :=
  [("price", .num 200), ("original_price", .num 100)]

/-- An item with no original price at all. -/
def itemNoOrigKvs : List (String × Json) := [("price", .num 150)]

/-- An item whose original price is present but negative. -/
def itemNegOrigKvs : List (String × Json) :=
  [("price", .num 150), ("original_price", .num (-5))]

/-- A catalog document (Shape B) with one item whose minor-unit price
is -100. -/
def docC8 : Json := .obj [("sections", .arr [ .obj [("name", .str "S"),
  ("items", .arr [ .obj [("id", .str "i"), ("price", .num (-100))]])]])]

/-- The item of `docC8`. -/
def itemC8kvs : List (String × Json) := [("id", .str "i"), ("price", .num (-100))]

/-- An item with a well-formed positive minor-unit price. -/
def itemC8wKvs : List (String × Json) := [("price", .num 250)]

/-- An item carrying a `disabled_info` key whose value is the empty
object. -/
def itemC9kvs : List (String × Json) := [("disabled_info", .obj [])]

/-- An item with a truthy `disabled_info` marker. -/
def itemC9wKvs : List (String × Json) :=
  [("disabled_info", .obj [("reason", .str "out_of_stock")])]

/-- A concrete discovered venue. -/
def venueW : Json :=
  .obj [("id", .str "v1"), ("slug", .str "m1"), ("name", .str "Market One")]

/-- Forgets the `scraped_at` field of a `markets.py` item. -/
def eraseTimeA (it : ItemA) : ItemA := { it with scraped_at := "" }

/-- Forgets the `scraped_at` field of a `markets_baku.py` item. -/
def eraseTimeB (it : ItemB) : ItemB := { it with scraped_at := "" }

/-- A Shape-B document with one embedded item. -/
def docC7 : Json := .obj [("sections", .arr [ .obj [("name", .str "S"),
  ("items", .arr [ .obj [("id", .str "x")]])]])]

/-- A Shape-B document: no top-level item pool, one section with one
embedded item. -/
def docShapeB : Json := .obj [("sections", .arr [ .obj [("name", .str "Drinks"),
  ("slug", .str "drinks"),
  ("items", .arr [ .obj [("id", .str "i1"), ("name", .str "Beer"),
    ("price", .num 500)]])]])]

/-- A Shape-A document: a one-item pool and one section whose category
references the item by id. -/
def docShapeA : Json := .obj [
  ("items", .arr [ .obj [("id", .str "i1"), ("name", .str "Beer"),
    ("price", .num 500)]]),
  ("sections", .arr [ .obj [("name", .str "Drinks"), ("slug", .str "drinks"),
    ("categories", .arr [ .obj [("id", .str "c1"),
      ("item_ids", .arr [.str "i1"])]])]])]

/-- Section carries no `categories` key (and is a dict). -/
def sectionNoCategories : Json → Bool
  | .obj skvs => (assocFind skvs "categories").isNone
  | _ => false

/-- Section carries no embedded `items` key (and is a dict). -/
def sectionNoInlineItems : Json → Bool
  | .obj skvs => (assocFind skvs "items").isNone
  | _ => false

/-- A document whose item pool contains an entry without an `id` key. -/
def docNoId : Json :=
  .obj [("sections", .arr []), ("items", .arr [ .obj [("name", .str "x")]])]

theorem exbind_ok {α β : Type} {e : Except PyErr α} {f : α → Except PyErr β} {b : β} :
    (e >>= f) = Except.ok b ↔ ∃ a, e = Except.ok a ∧ f a = Except.ok b := by
  cases e <;> simp [Bind.bind, Except.bind]

theorem expure_ok {α : Type} {a b : α} :
    (pure a : Except PyErr α) = Except.ok b ↔ a = b := by
  simp [pure, Except.pure]

theorem ok_bind {α β : Type} {a : α} {f : α → Except PyErr β} :
    ((Except.ok a : Except PyErr α) >>= f) = f a := rfl

theorem exmap_ok {α β : Type} {g : α → β} {e : Except PyErr α} {b : β} :
    e.map g = Except.ok b ↔ ∃ a, e = Except.ok a ∧ g a = b := by
  cases e <;> simp [Except.map]

/-- Success inversion for `mkItemA`: a produced item carries exactly the
values of the per-field extraction expressions. -/
theorem mkItemA_ok {d vi ci sn ss : Json} {now : String} {it : ItemA}
    (h : mkItemA d vi ci sn ss now = .ok it) :
    fPrice d = .ok it.price ∧
    fOriginalPrice d = .ok it.original_price ∧
    fDiscountAmount d = .ok it.discount_amount ∧
    fDiscountPercentage d = .ok it.discount_percentage ∧
    fUnitPriceValue d = .ok it.unit_price_value ∧
    fUnitPriceBase d = .ok it.unit_price_base ∧
    fUnitPriceUnit d = .ok it.unit_price_unit ∧
    fImageUrl d = .ok it.image_url ∧
    fImageBlurhash d = .ok it.image_blurhash ∧
    fDietaryMarkets d = .ok it.dietary_preferences ∧
    fTagsMarkets d = .ok it.tags ∧
    fIsAvailable d = .ok it.is_available ∧
    it.category_id = ci ∧ it.section_name = sn ∧ it.section_slug = ss ∧
    it.scraped_at = now := by
  simp only [mkItemA, exbind_ok, expure_ok] at h
  obtain ⟨a1, h1, a2, h2, a3, h3, a4, h4, a5, h5, a6, h6, a7, h7, a8, h8,
    a9, h9, a10, h10, a11, h11, a12, h12, a13, h13, a14, h14, a15, h15,
    a16, h16, a17, h17, a18, h18, a19, h19, a20, h20, a21, h21, a22, h22,
    a23, h23, a24, h24, a25, h25, a26, h26, a27, h27, a28, h28, a29, h29,
    a30, h30, a31, h31, a32, h32, hp⟩ := h
  subst hp
  exact ⟨h9, h10, h11, h12, h14, h15, h16, h18, h19, h27, h28, h29,
    rfl, rfl, rfl, rfl⟩

/-- Success inversion for `mkItemB`. -/
theorem mkItemB_ok {d vi sn ss : Json} {now : String} {it : ItemB}
    (h : mkItemB d vi sn ss now = .ok it) :
    fPrice d = .ok it.price ∧
    fOriginalPrice d = .ok it.original_price ∧
    fDiscountAmount d = .ok it.discount_amount ∧
    fDiscountPercentage d = .ok it.discount_percentage ∧
    fUnitPriceValue d = .ok it.unit_price_value ∧
    fUnitPriceBase d = .ok it.unit_price_base ∧
    fUnitPriceUnit d = .ok it.unit_price_unit ∧
    fImageUrl d = .ok it.image_url ∧
    fImageBlurhash d = .ok it.image_blurhash ∧
    fDietaryBaku d = .ok it.dietary_preferences ∧
    fTagsBaku d = .ok it.tags ∧
    fIsAvailable d = .ok it.is_available ∧
    it.section_name = sn ∧ it.section_slug = ss ∧
    it.scraped_at = now := by
  simp only [mkItemB, exbind_ok, expure_ok] at h
  obtain ⟨a1, h1, a2, h2, a3, h3, a4, h4, a5, h5, a6, h6, a7, h7, a8, h8,
    a9, h9, a10, h10, a11, h11, a12, h12, a13, h13, a14, h14, a15, h15,
    a16, h16, a17, h17, a18, h18, a19, h19, a20, h20, a21, h21, a22, h22,
    a23, h23, a24, h24, a25, h25, a26, h26, a27, h27, a28, h28, a29, h29,
    a30, h30, a31, h31, a32, h32, hp⟩ := h
  subst hp
  exact ⟨h9, h10, h11, h12, h14, h15, h16, h18, h19, h27, h28, h29,
    rfl, rfl, rfl⟩

/-! Evaluation lemmas for the per-field helpers. -/

theorem fPrice_num {kvs : List (String × Json)} {p : ℚ}
    (h : assocFind kvs "price" = some (.num p)) :
    fPrice (.obj kvs) = .ok (p / 100) := by
  simp [fPrice, pyGetD, h, asNum, ok_bind, pure, Except.pure]

theorem fPrice_absent {kvs : List (String × Json)}
    (h : assocFind kvs "price" = none) :
    fPrice (.obj kvs) = .ok 0 := by
  simp [fPrice, pyGetD, h, asNum, ok_bind, pure, Except.pure]

theorem fOriginalPrice_absent {kvs : List (String × Json)}
    (h : assocFind kvs "original_price" = none) :
    fOriginalPrice (.obj kvs) = .ok none := by
  simp [fOriginalPrice, pyGet1, pyGetD, h, truthy, ok_bind, pure, Except.pure]

theorem fDiscountAmount_absent {kvs : List (String × Json)}
    (h : assocFind kvs "original_price" = none) :
    fDiscountAmount (.obj kvs) = .ok 0 := by
  simp [fDiscountAmount, pyGet1, pyGetD, h, truthy, ok_bind, pure, Except.pure]

theorem fDiscountPercentage_absent {kvs : List (String × Json)}
    (h : assocFind kvs "original_price" = none) :
    fDiscountPercentage (.obj kvs) = .ok 0 := by
  simp [fDiscountPercentage, pyGet1, pyGetD, h, truthy, ok_bind, pure, Except.pure]

theorem fDiscountPercentage_nonpos {kvs : List (String × Json)} {o : ℚ}
    (h : assocFind kvs "original_price" = some (.num o)) (ho : o ≤ 0) :
    fDiscountPercentage (.obj kvs) = .ok 0 := by
  rcases eq_or_lt_of_le ho with rfl | hlt
  · simp [fDiscountPercentage, pyGet1, pyGetD, h, truthy, ok_bind, pure, Except.pure]
  · have hne : o ≠ 0 := ne_of_lt hlt
    have hngt : ¬ (0 < o) := not_lt.mpr ho
    simp [fDiscountPercentage, pyGet1, pyGetD, h, truthy, hne, pyGt0, hngt,
      ok_bind, pure, Except.pure]

theorem fDiscountPercentage_pos {kvs : List (String × Json)} {o p : ℚ}
    (h : assocFind kvs "original_price" = some (.num o)) (ho : 0 < o)
    (hp : assocFind kvs "price" = some (.num p)) :
    fDiscountPercentage (.obj kvs) = .ok (round2 ((o - p) / o * 100)) := by
  have hne : o ≠ 0 := ne_of_gt ho
  simp [fDiscountPercentage, pyGet1, pyGetD, h, hp, truthy, hne, pyGt0, ho,
    asNum, ok_bind, pure, Except.pure]

theorem fIsAvailable_obj (kvs : List (String × Json)) :
    fIsAvailable (.obj kvs) =
      .ok (!truthy ((assocFind kvs "disabled_info").getD .null)) := by
  simp [fIsAvailable, pyGet1, pyGetD, ok_bind, pure, Except.pure]

theorem fUnitPriceValue_absent {kvs : List (String × Json)}
    (h : assocFind kvs "unit_price" = none) :
    fUnitPriceValue (.obj kvs) = .ok none := by
  simp [fUnitPriceValue, pyGet1, pyGetD, h, truthy, ok_bind, pure, Except.pure]

theorem fUnitPriceBase_absent {kvs : List (String × Json)}
    (h : assocFind kvs "unit_price" = none) :
    fUnitPriceBase (.obj kvs) = .ok none := by
  simp [fUnitPriceBase, pyGet1, pyGetD, h, truthy, ok_bind, pure, Except.pure]

theorem fUnitPriceUnit_absent {kvs : List (String × Json)}
    (h : assocFind kvs "unit_price" = none) :
    fUnitPriceUnit (.obj kvs) = .ok (.str "") := by
  simp [fUnitPriceUnit, pyGet1, pyGetD, h, truthy, ok_bind, pure, Except.pure]

theorem fImageUrl_absent {kvs : List (String × Json)}
    (h : assocFind kvs "images" = none) :
    fImageUrl (.obj kvs) = .ok (.str "") := by
  simp [fImageUrl, pyGet1, pyGetD, h, truthy, ok_bind, pure, Except.pure]

theorem fImageBlurhash_absent {kvs : List (String × Json)}
    (h : assocFind kvs "images" = none) :
    fImageBlurhash (.obj kvs) = .ok (.str "") := by
  simp [fImageBlurhash, pyGet1, pyGetD, h, truthy, ok_bind, pure, Except.pure]

theorem fTagsBaku_absent {kvs : List (String × Json)}
    (h : assocFind kvs "tags" = none) :
    fTagsBaku (.obj kvs) = .ok "" := by
  simp [fTagsBaku, pyGetD, h, pyIter, ok_bind, pure, Except.pure, pyJoinStrs,
    pyStrList, String.intercalate]

theorem fDietaryBaku_absent {kvs : List (String × Json)}
    (h : assocFind kvs "dietary_preferences" = none) :
    fDietaryBaku (.obj kvs) = .ok "" := by
  simp [fDietaryBaku, pyGetD, h, pyIter, ok_bind, pure, Except.pure, pyJoinStrs,
    pyStrList, exList, String.intercalate]

/-!
Claim C2: discount percentage formula when the original price is present
and strictly positive.
-/

/-- C2: for every catalog item whose `original_price` minor-unit value is
present and strictly positive (and whose `price` minor-unit value is
present), the normalized product's `discount_percentage` equals
`round(((original_minor - price_minor) / original_minor) * 100, 2)` — with
Python's 2-digit rounding modelled by `round2`, which agrees with it within
the tolerance 1e-2 stated by the claim.  Proved for the products of both
scripts. -/
theorem C2_discount_percentage_formula :
    (∀ (kvs : List (String × Json)) (vi ci sn ss : Json) (now : String)
      (it : ItemA) (o p : ℚ),
      assocFind kvs "original_price" = some (.num o) → 0 < o →
      assocFind kvs "price" = some (.num p) →
      mkItemA (.obj kvs) vi ci sn ss now = .ok it →
      it.discount_percentage = round2 ((o - p) / o * 100)) ∧
    (∀ (kvs : List (String × Json)) (vi sn ss : Json) (now : String)
      (it : ItemB) (o p : ℚ),
      assocFind kvs "original_price" = some (.num o) → 0 < o →
      assocFind kvs "price" = some (.num p) →
      mkItemB (.obj kvs) vi sn ss now = .ok it →
      it.discount_percentage = round2 ((o - p) / o * 100)) := by
  constructor
  · intro kvs vi ci sn ss now it o p h ho hp hmk
    have hinv := (mkItemA_ok hmk).2.2.2.1
    rw [fDiscountPercentage_pos h ho hp] at hinv
    exact (Except.ok.inj hinv).symm
  · intro kvs vi sn ss now it o p h ho hp hmk
    have hinv := (mkItemB_ok hmk).2.2.2.1
    rw [fDiscountPercentage_pos h ho hp] at hinv
    exact (Except.ok.inj hinv).symm

/-- Witness for C2 at the concrete item: the product exists and its
discount percentage is the rounded formula value, namely 20 percent. -/
theorem C2_witness :
    (mkItemB (.obj itemC2kvs) (.obj []) (.str "") (.str "") "t").map
      ItemB.discount_percentage = .ok 20 := by
  obtain ⟨it, hit⟩ :
      ∃ it, mkItemB (.obj itemC2kvs) (.obj []) (.str "") (.str "") "t" = .ok it :=
    ⟨_, rfl⟩
  have hval :=
    C2_discount_percentage_formula.2 itemC2kvs (.obj []) (.str "") (.str "") "t"
      it 100 80 rfl (by norm_num) rfl hit
  rw [hit]
  simp only [Except.map]
  rw [hval]
  norm_num [round2, round_eq]

/-!
Claim C3: the claim asserts `discount_percentage = 0` whenever
`original_price` is absent **or not greater than `price`**.  The source
guard is `original_price` truthy and `> 0`, so an item whose positive
original price is *below* its price gets a *negative* percentage, not 0.
-/

/-- C3 counterexample: for the item with minor-unit price 200 and original
price 100 (original price not greater than price), the normalized
`discount_percentage` is -100, not 0 as the claim states. -/
theorem C3_counterexample :
    (mkItemB (.obj itemC3kvs) (.obj []) (.str "") (.str "") "t").map
      ItemB.discount_percentage = .ok (-100) ∧ ((-100 : ℚ) ≠ 0) := by
  obtain ⟨it, hit⟩ :
      ∃ it, mkItemB (.obj itemC3kvs) (.obj []) (.str "") (.str "") "t" = .ok it :=
    ⟨_, rfl⟩
  have hinv := (mkItemB_ok hit).2.2.2.1
  rw [fDiscountPercentage_pos
    (show assocFind itemC3kvs "original_price" = some (.num 100) from rfl)
    (by norm_num)
    (show assocFind itemC3kvs "price" = some (.num 200) from rfl)] at hinv
  have hval : it.discount_percentage = -100 := by
    rw [← Except.ok.inj hinv]
    norm_num [round2, round_eq]
  refine ⟨?_, by norm_num⟩
  rw [hit]
  simp only [Except.map]
  rw [hval]

/-- C3 as amended: `discount_percentage` is 0 when `original_price` is
absent **or not strictly positive**; `discount_amount` is 0 when
`original_price` is absent.  When the original price is positive but below
the price the percentage is the (negative) formula value, witnessed by the
counterexample.  Proved for the products of both scripts. -/
theorem C3_amended_discount_zero :
    (∀ (kvs : List (String × Json)) (vi ci sn ss : Json) (now : String) (it : ItemA),
      assocFind kvs "original_price" = none →
      mkItemA (.obj kvs) vi ci sn ss now = .ok it →
      it.discount_percentage = 0 ∧ it.discount_amount = 0) ∧
    (∀ (kvs : List (String × Json)) (vi ci sn ss : Json) (now : String)
      (it : ItemA) (o : ℚ),
      assocFind kvs "original_price" = some (.num o) → o ≤ 0 →
      mkItemA (.obj kvs) vi ci sn ss now = .ok it →
      it.discount_percentage = 0) ∧
    (∀ (kvs : List (String × Json)) (vi sn ss : Json) (now : String) (it : ItemB),
      assocFind kvs "original_price" = none →
      mkItemB (.obj kvs) vi sn ss now = .ok it →
      it.discount_percentage = 0 ∧ it.discount_amount = 0) ∧
    (∀ (kvs : List (String × Json)) (vi sn ss : Json) (now : String)
      (it : ItemB) (o : ℚ),
      assocFind kvs "original_price" = some (.num o) → o ≤ 0 →
      mkItemB (.obj kvs) vi sn ss now = .ok it →
      it.discount_percentage = 0) := by
  refine ⟨?_, ?_, ?_, ?_⟩
  · intro kvs vi ci sn ss now it h hmk
    obtain ⟨-, h2, h3, h4, -⟩ := mkItemA_ok hmk
    rw [fDiscountAmount_absent h] at h3
    rw [fDiscountPercentage_absent h] at h4
    exact ⟨(Except.ok.inj h4).symm, (Except.ok.inj h3).symm⟩
  · intro kvs vi ci sn ss now it o h ho hmk
    have h4 := (mkItemA_ok hmk).2.2.2.1
    rw [fDiscountPercentage_nonpos h ho] at h4
    exact (Except.ok.inj h4).symm
  · intro kvs vi sn ss now it h hmk
    obtain ⟨-, h2, h3, h4, -⟩ := mkItemB_ok hmk
    rw [fDiscountAmount_absent h] at h3
    rw [fDiscountPercentage_absent h] at h4
    exact ⟨(Except.ok.inj h4).symm, (Except.ok.inj h3).symm⟩
  · intro kvs vi sn ss now it o h ho hmk
    have h4 := (mkItemB_ok hmk).2.2.2.1
    rw [fDiscountPercentage_nonpos h ho] at h4
    exact (Except.ok.inj h4).symm

/-- Witness for the amended C3 at concrete items: with no original price
both discounts are 0 (both scripts), and with a negative original price the
percentage is 0. -/
theorem C3_amended_witness :
    ((mkItemA (.obj itemNoOrigKvs) (.obj []) (.str "") (.str "") (.str "") "t").map
      (fun it => (it.discount_percentage, it.discount_amount)) = .ok (0, 0)) ∧
    ((mkItemB (.obj itemNoOrigKvs) (.obj []) (.str "") (.str "") "t").map
      (fun it => (it.discount_percentage, it.discount_amount)) = .ok (0, 0)) ∧
    ((mkItemB (.obj itemNegOrigKvs) (.obj []) (.str "") (.str "") "t").map
      ItemB.discount_percentage = .ok 0) := by
  refine ⟨?_, ?_, ?_⟩
  · obtain ⟨it, hit⟩ :
        ∃ it, mkItemA (.obj itemNoOrigKvs) (.obj []) (.str "") (.str "") (.str "") "t"
          = .ok it := ⟨_, rfl⟩
    obtain ⟨hz1, hz2⟩ :=
      C3_amended_discount_zero.1 itemNoOrigKvs (.obj []) (.str "") (.str "") (.str "")
        "t" it rfl hit
    rw [hit]
    simp only [Except.map]
    rw [hz1, hz2]
  · obtain ⟨it, hit⟩ :
        ∃ it, mkItemB (.obj itemNoOrigKvs) (.obj []) (.str "") (.str "") "t"
          = .ok it := ⟨_, rfl⟩
    obtain ⟨hz1, hz2⟩ :=
      C3_amended_discount_zero.2.2.1 itemNoOrigKvs (.obj []) (.str "") (.str "")
        "t" it rfl hit
    rw [hit]
    simp only [Except.map]
    rw [hz1, hz2]
  · obtain ⟨it, hit⟩ :
        ∃ it, mkItemB (.obj itemNegOrigKvs) (.obj []) (.str "") (.str "") "t"
          = .ok it := ⟨_, rfl⟩
    have hz :=
      C3_amended_discount_zero.2.2.2 itemNegOrigKvs (.obj []) (.str "") (.str "")
        "t" it (-5) rfl (by norm_num) hit
    rw [hit]
    simp only [Except.map]
    rw [hz]

/-!
Claim C8: the claim asserts `price >= 0` for *every* catalog document and
item.  The source computes `item_data.get('price', 0) / 100` with no sign
check, so a negative minor-unit price yields a negative decimal price.
-/

/-- C8 counterexample: normalizing `docC8` yields exactly one product and
its price is -1, which is negative — the claimed invariant `price >= 0`
fails on this document. -/
theorem C8_counterexample :
    (Baku.extract_items_from_venue docC8 (.obj []) "t").map (List.map ItemB.price)
      = .ok [-1] ∧ ¬ ((0 : ℚ) ≤ -1) := by
  obtain ⟨it, hit⟩ :
      ∃ it, mkItemB (.obj itemC8kvs) (.obj []) (.str "S") (.str "") "t" = .ok it :=
    ⟨_, rfl⟩
  have hx : Baku.extract_items_from_venue docC8 (.obj []) "t"
      = (mkItemB (.obj itemC8kvs) (.obj []) (.str "S") (.str "") "t").map
          (fun x => [x]) := rfl
  have hp := (mkItemB_ok hit).1
  rw [fPrice_num (show assocFind itemC8kvs "price" = some (.num (-100)) from rfl)] at hp
  have hval : it.price = -1 := by
    rw [← Except.ok.inj hp]
    norm_num
  refine ⟨?_, by norm_num⟩
  rw [hx, hit]
  simp only [Except.map, List.map_cons, List.map_nil]
  rw [hval]

/-- C8 as amended: the normalized price is non-negative whenever the item's
minor-unit `price` field is absent (default 0) or a non-negative number;
the code performs no clamping, so a negative minor-unit price propagates.
Proved for the products of both scripts. -/
theorem C8_amended_price_nonneg :
    (∀ (kvs : List (String × Json)) (vi ci sn ss : Json) (now : String) (it : ItemA),
      (assocFind kvs "price" = none ∨
        ∃ p, assocFind kvs "price" = some (.num p) ∧ 0 ≤ p) →
      mkItemA (.obj kvs) vi ci sn ss now = .ok it →
      0 ≤ it.price) ∧
    (∀ (kvs : List (String × Json)) (vi sn ss : Json) (now : String) (it : ItemB),
      (assocFind kvs "price" = none ∨
        ∃ p, assocFind kvs "price" = some (.num p) ∧ 0 ≤ p) →
      mkItemB (.obj kvs) vi sn ss now = .ok it →
      0 ≤ it.price) := by
  constructor
  · intro kvs vi ci sn ss now it hcase hmk
    have hp := (mkItemA_ok hmk).1
    rcases hcase with h | ⟨p, h, hp0⟩
    · rw [fPrice_absent h] at hp
      rw [← Except.ok.inj hp]
    · rw [fPrice_num h] at hp
      rw [← Except.ok.inj hp]
      positivity
  · intro kvs vi sn ss now it hcase hmk
    have hp := (mkItemB_ok hmk).1
    rcases hcase with h | ⟨p, h, hp0⟩
    · rw [fPrice_absent h] at hp
      rw [← Except.ok.inj hp]
    · rw [fPrice_num h] at hp
      rw [← Except.ok.inj hp]
      positivity

/-- Witness for the amended C8 at concrete items: an absent price gives
price 0 for `markets.py` products, and minor-unit 250 gives a non-negative
price for `markets_baku.py` products. -/
theorem C8_amended_witness :
    ((mkItemA (.obj []) (.obj []) (.str "") (.str "") (.str "") "t").map
      (fun it => decide (0 ≤ it.price)) = .ok true) ∧
    ((mkItemB (.obj itemC8wKvs) (.obj []) (.str "") (.str "") "t").map
      (fun it => decide (0 ≤ it.price)) = .ok true) := by
  constructor
  · obtain ⟨it, hit⟩ :
        ∃ it, mkItemA (.obj []) (.obj []) (.str "") (.str "") (.str "") "t" = .ok it :=
      ⟨_, rfl⟩
    have h := C8_amended_price_nonneg.1 [] (.obj []) (.str "") (.str "") (.str "") "t"
      it (Or.inl rfl) hit
    rw [hit]
    simp only [Except.map]
    simp [h]
  · obtain ⟨it, hit⟩ :
        ∃ it, mkItemB (.obj itemC8wKvs) (.obj []) (.str "") (.str "") "t" = .ok it :=
      ⟨_, rfl⟩
    have h := C8_amended_price_nonneg.2 itemC8wKvs (.obj []) (.str "") (.str "") "t"
      it (Or.inr ⟨250, rfl, by norm_num⟩) hit
    rw [hit]
    simp only [Except.map]
    simp [h]

/-!
Claim C9: the claim asserts `availability = NOT present(disabled_info)`.
The source computes `not item_data.get('disabled_info')`, i.e. the negation
of the *truthiness* of the marker: a marker that is present but empty (or
false, 0, null) still counts as available.
-/

/-- C9 counterexample: the `disabled_info` marker is present on the item,
yet the normalized product is available — presence of the marker does not
imply unavailability. -/
theorem C9_counterexample :
    (mkItemB (.obj itemC9kvs) (.obj []) (.str "") (.str "") "t").map
      ItemB.is_available = .ok true ∧
    (assocFind itemC9kvs "disabled_info").isSome = true := by
  exact ⟨rfl, rfl⟩

/-- C9 as amended: the normalized availability flag is the negation of the
*truthiness* of the `disabled_info` field — an absent marker means
available, and a present marker means unavailable only when its value is
truthy (non-null, non-false, non-zero, non-empty).  Proved for the products
of both scripts. -/
theorem C9_amended_availability :
    (∀ (kvs : List (String × Json)) (vi ci sn ss : Json) (now : String) (it : ItemA),
      mkItemA (.obj kvs) vi ci sn ss now = .ok it →
      it.is_available = !truthy ((assocFind kvs "disabled_info").getD .null) ∧
      ((assocFind kvs "disabled_info").isNone = true → it.is_available = true)) ∧
    (∀ (kvs : List (String × Json)) (vi sn ss : Json) (now : String) (it : ItemB),
      mkItemB (.obj kvs) vi sn ss now = .ok it →
      it.is_available = !truthy ((assocFind kvs "disabled_info").getD .null) ∧
      ((assocFind kvs "disabled_info").isNone = true → it.is_available = true)) := by
  constructor
  · intro kvs vi ci sn ss now it hmk
    have ha := (mkItemA_ok hmk).2.2.2.2.2.2.2.2.2.2.2.1
    rw [fIsAvailable_obj] at ha
    have hval := (Except.ok.inj ha).symm
    refine ⟨hval, fun hn => ?_⟩
    rw [hval, Option.isNone_iff_eq_none.mp hn]
    rfl
  · intro kvs vi sn ss now it hmk
    have ha := (mkItemB_ok hmk).2.2.2.2.2.2.2.2.2.2.2.1
    rw [fIsAvailable_obj] at ha
    have hval := (Except.ok.inj ha).symm
    refine ⟨hval, fun hn => ?_⟩
    rw [hval, Option.isNone_iff_eq_none.mp hn]
    rfl

/-- Witness for the amended C9 at concrete items: an absent marker gives an
available `markets.py` product; a non-empty marker gives an unavailable
`markets_baku.py` product. -/
theorem C9_amended_witness :
    ((mkItemA (.obj []) (.obj []) (.str "") (.str "") (.str "") "t").map
      ItemA.is_available = .ok true) ∧
    ((mkItemB (.obj itemC9wKvs) (.obj []) (.str "") (.str "") "t").map
      ItemB.is_available = .ok false) := by
  constructor
  · obtain ⟨it, hit⟩ :
        ∃ it, mkItemA (.obj []) (.obj []) (.str "") (.str "") (.str "") "t" = .ok it :=
      ⟨_, rfl⟩
    have h := (C9_amended_availability.1 [] (.obj []) (.str "") (.str "") (.str "")
      "t" it hit).2 rfl
    rw [hit]
    simp only [Except.map]
    rw [h]
  · obtain ⟨it, hit⟩ :
        ∃ it, mkItemB (.obj itemC9wKvs) (.obj []) (.str "") (.str "") "t" = .ok it :=
      ⟨_, rfl⟩
    have h := (C9_amended_availability.2 itemC9wKvs (.obj []) (.str "") (.str "")
      "t" it hit).1
    rw [hit]
    simp only [Except.map]
    rw [h]
    rfl

/-!
Claim C4: list-field coercion.  `markets_baku.py` coerces both the
plain-string representation and the id-object representation of `tags` /
`dietary_preferences` to the same comma-joined string; `markets.py` joins
the list as-is, which works for plain strings and raises `TypeError` on the
object representation.
-/

theorem pyStrList_strs (ids : List String) :
    pyStrList (ids.map Json.str) = .ok ids := by
  induction ids with
  | nil => rfl
  | cons i rest ih => simp [pyStrList, ih, ok_bind, pure, Except.pure]

theorem coerceTag_strs : coerceTagBaku ∘ Json.str = Json.str :=
  funext (fun _ => rfl)

theorem coerceTag_objs :
    (coerceTagBaku ∘ fun i => Json.obj [("id", Json.str i)]) = Json.str :=
  funext (fun _ => rfl)

theorem err_bind {α β : Type} {e : PyErr} {f : α → Except PyErr β} :
    ((Except.error e : Except PyErr α) >>= f) = Except.error e := rfl

theorem coerceDietary_strs (ids : List String) :
    exList coerceDietaryBaku (ids.map Json.str) = .ok (ids.map Json.str) := by
  induction ids with
  | nil => rfl
  | cons i rest ih => simp [exList, coerceDietaryBaku, ih, ok_bind, pure, Except.pure]

theorem coerceDietary_objs (ids : List String) :
    exList coerceDietaryBaku (ids.map (fun i => Json.obj [("id", Json.str i)]))
      = .ok (ids.map Json.str) := by
  induction ids with
  | nil => rfl
  | cons i rest ih => simp [exList, coerceDietaryBaku, assocFind, ih, ok_bind, pure,
      Except.pure]

/-- C4 as amended: in `markets_baku.py` the two representations of a tag or
dietary-preference list — plain strings or objects carrying an `id` — are
coerced to the same comma-joined string of identifiers; in `markets.py` the
plain-string representation joins the same way, but the object
representation raises `TypeError` instead of being coerced. -/
theorem C4_amended_tag_coercion :
    (∀ ids : List String,
      fTagsBaku (.obj [("tags", .arr (ids.map Json.str))])
        = .ok (String.intercalate "," ids)) ∧
    (∀ ids : List String,
      fTagsBaku (.obj [("tags", .arr (ids.map (fun i => Json.obj [("id", Json.str i)])))])
        = .ok (String.intercalate "," ids)) ∧
    (∀ ids : List String,
      fDietaryBaku (.obj [("dietary_preferences", .arr (ids.map Json.str))])
        = .ok (String.intercalate "," ids)) ∧
    (∀ ids : List String,
      fDietaryBaku (.obj [("dietary_preferences",
          .arr (ids.map (fun i => Json.obj [("id", Json.str i)])))])
        = .ok (String.intercalate "," ids)) ∧
    (∀ ids : List String,
      fTagsMarkets (.obj [("tags", .arr (ids.map Json.str))])
        = .ok (String.intercalate "," ids)) ∧
    (∀ (i : String) (ids : List String),
      fTagsMarkets (.obj [("tags",
          .arr (((i :: ids)).map (fun j => Json.obj [("id", Json.str j)])))])
        = .error .typeError) := by
  refine ⟨?_, ?_, ?_, ?_, ?_, ?_⟩
  · intro ids
    simp [fTagsBaku, pyGetD, assocFind, pyIter, ok_bind, List.map_map,
      coerceTag_strs, pyJoinStrs, pyStrList_strs, pure, Except.pure]
  · intro ids
    simp [fTagsBaku, pyGetD, assocFind, pyIter, ok_bind, List.map_map,
      coerceTag_objs, pyJoinStrs, pyStrList_strs, pure, Except.pure]
  · intro ids
    simp [fDietaryBaku, pyGetD, assocFind, pyIter, ok_bind, coerceDietary_strs,
      pyJoinStrs, pyStrList_strs, pure, Except.pure]
  · intro ids
    simp [fDietaryBaku, pyGetD, assocFind, pyIter, ok_bind, coerceDietary_objs,
      pyJoinStrs, pyStrList_strs, pure, Except.pure]
  · intro ids
    simp [fTagsMarkets, pyGetD, assocFind, pyIter, ok_bind, pyJoinStrs,
      pyStrList_strs, pure, Except.pure]
  · intro i ids
    simp [fTagsMarkets, pyGetD, assocFind, pyIter, ok_bind, err_bind,
      pyJoinStrs, pyStrList, pure, Except.pure]

/-- C4 counterexample: on the object representation
`[{"id":"beer"},{"id":"local"}]` the `markets.py` normalizer raises
`TypeError` instead of producing `"beer,local"`; the Baku normalizer and
the plain-string form produce `"beer,local"` as the claim describes. -/
theorem C4_counterexample :
    fTagsMarkets (.obj [("tags",
        .arr [.obj [("id", .str "beer")], .obj [("id", .str "local")]])])
      = .error .typeError ∧
    fTagsBaku (.obj [("tags",
        .arr [.obj [("id", .str "beer")], .obj [("id", .str "local")]])])
      = .ok "beer,local" ∧
    fTagsBaku (.obj [("tags", .arr [.str "beer", .str "local"])])
      = .ok "beer,local" ∧
    fTagsMarkets (.obj [("tags", .arr [.str "beer", .str "local"])])
      = .ok "beer,local" := ⟨rfl, rfl, rfl, rfl⟩

/-!
Claim C5: the gateway never lets transport or decode failures escape as
exceptions for GET/POST.  The claim labels *every* non-2xx status a
transport failure yielding `None`; `requests`' `raise_for_status` only
raises for 400-599, so a terminal 3xx response with a decodable body is
returned as a document, not as `None`.
-/

/-- C5 as amended: for GET and POST the gateway always returns a value
(never raises): `None` on a transport exception, on a 4xx/5xx status, and
on a JSON decode failure; a non-error status with a decodable body yields
the document. -/
theorem C5_amended_gateway :
    ∀ (method : String) (o : HttpOutcome),
      (method = "GET" ∨ method = "POST") →
      (∃ r, make_request method o = .ok r) ∧
      (o = .requestError → make_request method o = .ok none) ∧
      (∀ st b, o = .response st b → 400 ≤ st → st < 600 →
        make_request method o = .ok none) ∧
      (∀ st, o = .response st none → make_request method o = .ok none) := by
  intro method o hm
  have hcond : (pyUpper method == "GET" || pyUpper method == "POST") = true := by
    rcases hm with rfl | rfl <;> rfl
  refine ⟨?_, ?_, ?_, ?_⟩
  · cases o with
    | requestError => exact ⟨none, by simp [make_request, hcond]⟩
    | response st b =>
      by_cases h45 : 400 ≤ st ∧ st < 600
      · exact ⟨none, by simp [make_request, hcond, h45]⟩
      · cases b with
        | none => exact ⟨none, by simp [make_request, hcond, h45]⟩
        | some j => exact ⟨some j, by simp [make_request, hcond, h45]⟩
  · rintro rfl
    simp [make_request, hcond]
  · rintro st b rfl h4 h6
    have h45 : 400 ≤ st ∧ st < 600 := ⟨h4, h6⟩
    simp [make_request, hcond, h45]
  · rintro st rfl
    by_cases h45 : 400 ≤ st ∧ st < 600 <;> simp [make_request, hcond, h45]

/-- C5 counterexample: a final response with status 300 — not a 2xx
status, as the second conjunct records — and a decodable JSON body makes
the gateway return the document, not the absence value the claim
prescribes for every non-2xx status (`raise_for_status` only raises for
400-599). -/
theorem C5_counterexample :
    make_request "GET" (HttpOutcome.response 300 (some (.obj []))) =
      .ok (some (.obj [])) ∧
    ¬ ((200 : ℕ) ≤ 300 ∧ (300 : ℕ) ≤ 299) := by
  constructor
  · have hcond : (pyUpper "GET" == "GET" || pyUpper "GET" == "POST") = true := rfl
    simp [make_request, hcond]
  · norm_num

/-- Witness for the amended C5 at concrete calls: a POST hit by a transport
exception, a GET answered with status 404, and a GET whose body fails to
decode all return the absence value. -/
theorem C5_witness :
    make_request "POST" HttpOutcome.requestError = .ok none ∧
    make_request "GET" (.response 404 (some (.obj []))) = .ok none ∧
    make_request "GET" (.response 200 none) = .ok none := by
  have h1 := (C5_amended_gateway "POST" .requestError (Or.inr rfl)).2.1 rfl
  have h2 := (C5_amended_gateway "GET" (.response 404 (some (.obj []))) (Or.inl rfl)).2.2.1
    404 (some (.obj [])) rfl (by norm_num) (by norm_num)
  have h3 := (C5_amended_gateway "GET" (.response 200 none) (Or.inl rfl)).2.2.2 200 rfl
  exact ⟨h1, h2, h3⟩

/-!
Claim C6: a venue whose catalog fetch fails still contributes its record
exactly once and zero products, and the failure does not abort the run.
-/

/-- C6: whenever every per-venue record build and every per-venue
fetch-and-extract branch succeed (the loop body raises nothing), the
orchestrator returns without error the per-venue records in order — one
record per discovered venue — together with the concatenation of the
per-venue item contributions; and a venue whose catalog fetch returns the
absence value contributes the empty item list.  In particular a failed
catalog fetch neither removes the venue's record nor aborts the run. -/
theorem C6_failed_fetch_keeps_venue :
    ∀ (markets : List Json) (fetch : Json → Option Json) (cn cs now : String)
      (recs : List MarketRec) (contribs : List (List ItemB)),
      exList (Baku.venueStep cn cs now) markets = .ok recs →
      exList (Baku.venueContribution fetch now) markets = .ok contribs →
      Baku.scrape_markets markets fetch cn cs now = .ok (recs, contribs.flatten) ∧
      recs.length = markets.length ∧
      (∀ m ∈ markets, ∀ s, pyGetD m "slug" (.str "") = .ok s → fetch s = none →
        Baku.venueContribution fetch now m = .ok []) := by
  intro markets
  induction markets with
  | nil =>
    intro fetch cn cs now recs contribs h1 h2
    simp only [exList] at h1 h2
    have hr : ([] : List MarketRec) = recs := by
      simpa using h1
    have hc : ([] : List (List ItemB)) = contribs := by
      simpa using h2
    subst hr
    subst hc
    exact ⟨rfl, rfl, by simp⟩
  | cons m rest ih =>
    intro fetch cn cs now recs contribs h1 h2
    simp only [exList, exbind_ok, expure_ok] at h1 h2
    obtain ⟨r, hr, rs, hrs, hback⟩ := h1
    obtain ⟨c, hc, cs2, hcs, hback2⟩ := h2
    subst hback
    subst hback2
    simp only [Baku.venueStep, exbind_ok] at hr
    obtain ⟨s, hs, n, hn, hmk⟩ := hr
    simp only [Baku.venueContribution, exbind_ok] at hc
    obtain ⟨s2, hs2, hbr⟩ := hc
    rw [hs] at hs2
    have hseq : s2 = s := (Except.ok.inj hs2).symm
    subst hseq
    obtain ⟨hscr, hlen, hzero⟩ := ih fetch cn cs now rs cs2 hrs hcs
    refine ⟨?_, by simp [hlen], ?_⟩
    · simp only [Baku.scrape_markets, hs, ok_bind, hn, hmk, hbr, hscr,
        List.flatten_cons]
      rfl
    · intro m2 hm2 s3 hs3 hf3
      rcases List.mem_cons.mp hm2 with rfl | hm2r
      · simp only [Baku.venueContribution, hs3, ok_bind, Baku.venueDetailsBranch, hf3,
          pure, Except.pure]
      · exact hzero m2 hm2r s3 hs3 hf3

/-- Witness for C6 at a concrete venue whose catalog fetch always fails:
the run succeeds with exactly one venue record and zero products. -/
theorem C6_witness :
    (Baku.scrape_markets [venueW] (fun _ => none) "Baku" "baku" "t").map
      (fun p => (p.1.length, p.2.length)) = .ok (1, 0) := by
  obtain ⟨recs, hrecs⟩ :
      ∃ r, exList (Baku.venueStep "Baku" "baku" "t") [venueW] = .ok r := ⟨_, rfl⟩
  obtain ⟨contribs, hcs⟩ :
      ∃ c, exList (Baku.venueContribution (fun _ => none) "t") [venueW] = .ok c :=
    ⟨_, rfl⟩
  obtain ⟨h1, h2, h3⟩ := C6_failed_fetch_keeps_venue [venueW] (fun _ => none)
    "Baku" "baku" "t" recs contribs hrecs hcs
  have hc0 := h3 venueW (by simp) (.str "m1") rfl rfl
  have hcval : contribs = [[]] := by
    simp only [exList, hc0, ok_bind, expure_ok] at hcs
    exact hcs.symm
  rw [h1]
  simp only [Except.map]
  rw [hcval]
  have h2v : recs.length = 1 := by simpa using h2
  simp [h2v]

/-!
Claim C7: purity of normalization.  Each extracted item carries
`scraped_at = datetime.now().isoformat()`, a wall-clock reading, so two
invocations of the extractor on identical document and venue context
produce records that differ in `scraped_at`.  The wall clock is the `now`
argument of this model; the theorems below show `now` influences nothing
but `scraped_at`.
-/

theorem exmap_bind {α β γ : Type} (g : β → γ) (e : Except PyErr α)
    (f : α → Except PyErr β) :
    (e >>= f).map g = e >>= fun a => (f a).map g := by
  cases e <;> rfl

theorem exmap_pure2 {α β : Type} (g : α → β) (a : α) :
    (pure a : Except PyErr α).map g = pure (g a) := rfl

theorem mapped_bind {α β γ : Type} (h : α → β) (e : Except PyErr α)
    (k : β → Except PyErr γ) :
    (e.map h) >>= k = e >>= fun a => k (h a) := by
  cases e <;> rfl

theorem exbind_congr {α β : Type} {e : Except PyErr α} {f g : α → Except PyErr β}
    (h : ∀ a, f a = g a) : e >>= f = e >>= g := by
  cases e <;> simp [Bind.bind, Except.bind, h]

theorem exList_map {α β γ : Type} (g : β → γ) (f : α → Except PyErr β)
    (xs : List α) :
    (exList f xs).map (List.map g) = exList (fun x => (f x).map g) xs := by
  induction xs with
  | nil => rfl
  | cons a as ih =>
    simp only [exList, exmap_bind, ← ih, mapped_bind]
    apply exbind_congr
    intro b
    simp only [exmap_bind, mapped_bind, exmap_pure2, List.map_cons]

theorem mkItemA_time (d vi ci sn ss : Json) (t1 t2 : String) :
    (mkItemA d vi ci sn ss t1).map eraseTimeA
      = (mkItemA d vi ci sn ss t2).map eraseTimeA := by
  simp only [mkItemA, exmap_bind, exmap_pure2]
  rfl

theorem mkItemB_time (d vi sn ss : Json) (t1 t2 : String) :
    (mkItemB d vi sn ss t1).map eraseTimeB
      = (mkItemB d vi sn ss t2).map eraseTimeB := by
  simp only [mkItemB, exmap_bind, exmap_pure2]
  rfl

/-- Pushing the per-item eraser through a loop that flattens its per-group
results: if two group bodies agree after erasure, so do the flattened
loops. -/
theorem exList_flatten_time {α β : Type} (g : β → β) (f1 f2 : α → Except PyErr (List β))
    (hf : ∀ s, (f1 s).map (List.map g) = (f2 s).map (List.map g)) (ss : List α) :
    ((exList f1 ss >>= fun groups => pure groups.flatten) :
        Except PyErr (List β)).map (List.map g)
      = (exList f2 ss >>= fun groups => pure groups.flatten).map (List.map g) := by
  have key : ∀ f : α → Except PyErr (List β),
      ((exList f ss >>= fun groups => pure groups.flatten) :
          Except PyErr (List β)).map (List.map g)
        = exList (fun x => (f x).map (List.map g)) ss >>= fun gs => pure gs.flatten := by
    intro f
    rw [← exList_map, mapped_bind, exmap_bind]
    apply exbind_congr
    intro groups
    simp [exmap_pure2, List.map_flatten]
  rw [key f1, key f2, funext hf]

/-- Wrapping a single produced item into a singleton group commutes with
erasure. -/
theorem single_time {β : Type} (g : β → β) (e1 e2 : Except PyErr β)
    (h : e1.map g = e2.map g) :
    ((e1 >>= fun it => pure [it]) : Except PyErr (List β)).map (List.map g)
      = (e2 >>= fun it => pure [it]).map (List.map g) := by
  have k : ∀ e : Except PyErr β,
      ((e >>= fun it => pure [it]) : Except PyErr (List β)).map (List.map g)
        = (e.map g) >>= fun it => pure [it] := by
    intro e
    cases e <;> rfl
  rw [k, k, h]

/-- C7 as amended: normalization is a pure function of the catalog
document, the venue context, and the extraction timestamp; the timestamp
influences nothing but the `scraped_at` field, so two runs on the same
document and context agree record for record once `scraped_at` is
forgotten.  Proved for both scripts. -/
theorem C7_amended_pure_mod_timestamp :
    (∀ (d vi : Json) (t1 t2 : String),
      (Markets.extract_items_from_venue d vi t1).map (List.map eraseTimeA)
        = (Markets.extract_items_from_venue d vi t2).map (List.map eraseTimeA)) ∧
    (∀ (d vi : Json) (t1 t2 : String),
      (Baku.extract_items_from_venue d vi t1).map (List.map eraseTimeB)
        = (Baku.extract_items_from_venue d vi t2).map (List.map eraseTimeB)) := by
  constructor
  · intro d vi t1 t2
    simp only [Markets.extract_items_from_venue]
    by_cases hd : (!truthy d) = true
    · simp [hd]
    · simp only [hd, if_false, Bool.false_eq_true]
      rw [exmap_bind, exmap_bind]
      apply exbind_congr; intro venue_sections
      rw [exmap_bind, exmap_bind]
      apply exbind_congr; intro all_items_data
      rw [exmap_bind, exmap_bind]
      apply exbind_congr; intro pool
      rw [exmap_bind, exmap_bind]
      apply exbind_congr; intro items_dict
      rw [exmap_bind, exmap_bind]
      apply exbind_congr; intro ss
      apply exList_flatten_time
      intro s
      rw [exmap_bind, exmap_bind]
      apply exbind_congr; intro section_name
      rw [exmap_bind, exmap_bind]
      apply exbind_congr; intro section_slug
      rw [exmap_bind, exmap_bind]
      apply exbind_congr; intro sget
      rw [exmap_bind, exmap_bind]
      apply exbind_congr; intro cats
      apply exList_flatten_time
      intro category
      rw [exmap_bind, exmap_bind]
      apply exbind_congr; intro category_id
      rw [exmap_bind, exmap_bind]
      apply exbind_congr; intro iget
      rw [exmap_bind, exmap_bind]
      apply exbind_congr; intro item_ids
      apply exList_flatten_time
      intro item_id
      rw [exmap_bind, exmap_bind]
      apply exbind_congr; intro found
      cases found with
      | none => rfl
      | some item_data =>
        exact single_time eraseTimeA _ _ (mkItemA_time item_data vi category_id
          section_name section_slug t1 t2)
  · intro d vi t1 t2
    simp only [Baku.extract_items_from_venue]
    by_cases hd : (!truthy d) = true
    · simp [hd]
    · simp only [hd, if_false, Bool.false_eq_true]
      rw [exmap_bind, exmap_bind]
      apply exbind_congr; intro venue_sections
      by_cases hs : (!truthy venue_sections) = true
      · simp [hs]
      · simp only [hs, if_false, Bool.false_eq_true]
        rw [exmap_bind, exmap_bind]
        apply exbind_congr; intro ss
        apply exList_flatten_time
        intro s
        rw [exmap_bind, exmap_bind]
        apply exbind_congr; intro section_name
        rw [exmap_bind, exmap_bind]
        apply exbind_congr; intro section_slug
        rw [exmap_bind, exmap_bind]
        apply exbind_congr; intro sget
        rw [exmap_bind, exmap_bind]
        apply exbind_congr; intro section_items
        rw [exList_map, exList_map]
        rw [funext (fun item_data => mkItemB_time item_data vi section_name
          section_slug t1 t2)]

/-- C7 counterexample: running the normalizer twice on the same document
and venue context — at two different wall-clock readings, as two sequential
runs are — produces records that differ in their `scraped_at` field, so
the outputs are not identical record for record. -/
theorem C7_counterexample :
    (Baku.extract_items_from_venue docC7 (.obj []) "2024-01-01T00:00:00").map
      (List.map ItemB.scraped_at) = .ok ["2024-01-01T00:00:00"] ∧
    (Baku.extract_items_from_venue docC7 (.obj []) "2024-01-02T00:00:00").map
      (List.map ItemB.scraped_at) = .ok ["2024-01-02T00:00:00"] ∧
    ("2024-01-01T00:00:00" : String) ≠ "2024-01-02T00:00:00" :=
  ⟨rfl, rfl, by decide⟩

/-!
Claim C1: the claim describes a single normalizer that detects the document
shape and handles both.  In the repository the two shapes are split across
the two scripts: `markets.py` always performs the Shape-A walk (id lookup
over sections → categories → item-id lists) and `markets_baku.py` always
performs the Shape-B walk (sections → embedded items); neither inspects the
document to choose a walk, so each returns the empty sequence on a document
of the other shape.
-/

/-- C1 counterexample: on the Shape-B document the `markets.py` normalizer
produces no products although the Shape-B walk yields one (as the Baku
normalizer shows on the same document), and symmetrically on the Shape-A
document — no normalizer in the repository detects and handles both
shapes. -/
theorem C1_counterexample :
    (Markets.extract_items_from_venue docShapeB (.obj []) "t").map List.length
      = .ok 0 ∧
    (Baku.extract_items_from_venue docShapeB (.obj []) "t").map List.length
      = .ok 1 ∧
    (Markets.extract_items_from_venue docShapeA (.obj []) "t").map List.length
      = .ok 1 ∧
    (Baku.extract_items_from_venue docShapeA (.obj []) "t").map List.length
      = .ok 0 :=
  ⟨rfl, rfl, rfl, rfl⟩

theorem pure_bind2 {α β : Type} {a : α} {f : α → Except PyErr β} :
    ((pure a : Except PyErr α) >>= f) = f a := rfl

theorem exbind_assoc {α β γ : Type} (e : Except PyErr α)
    (f : α → Except PyErr β) (g : β → Except PyErr γ) :
    (e >>= f) >>= g = e >>= fun a => f a >>= g := by
  cases e <;> rfl

/-- A loop whose every iteration contributes the empty group flattens to
the empty list. -/
theorem exList_flatten_nil {α β : Type} (f : α → Except PyErr (List β)) (ss : List α)
    (h : ∀ s ∈ ss, f s = .ok []) :
    ((exList f ss >>= fun groups => pure groups.flatten) :
      Except PyErr (List β)) = .ok [] := by
  induction ss with
  | nil => rfl
  | cons a as ih =>
    have ha := h a (List.mem_cons_self a as)
    have hrest : ∀ s ∈ as, f s = .ok [] := fun s hs => h s (List.mem_cons_of_mem a hs)
    simp only [exList, exbind_assoc, ha, ok_bind, pure_bind2, List.flatten_cons,
      List.nil_append]
    exact ih hrest

/-- C1 as amended: the repository splits the two catalog shapes across two
normalizers and performs no runtime shape detection.  `markets.py` always
runs the Shape-A walk, so on a Shape-B document (sections without
`categories`, no top-level item pool) it returns the empty sequence
instead of walking the embedded items; `markets_baku.py` always runs the
Shape-B walk, so on a Shape-A layout (sections without embedded `items`)
it returns the empty sequence instead of resolving ids.  Each handles only
its own shape, as the counterexample's positive cases show. -/
theorem C1_amended_no_detection :
    (∀ (kvs : List (String × Json)) (ss : List Json) (vi : Json) (now : String),
      assocFind kvs "sections" = some (.arr ss) →
      assocFind kvs "items" = none →
      (∀ s ∈ ss, sectionNoCategories s = true) →
      Markets.extract_items_from_venue (.obj kvs) vi now = .ok []) ∧
    (∀ (kvs : List (String × Json)) (ss : List Json) (vi : Json) (now : String),
      assocFind kvs "sections" = some (.arr ss) →
      (∀ s ∈ ss, sectionNoInlineItems s = true) →
      Baku.extract_items_from_venue (.obj kvs) vi now = .ok []) := by
  constructor
  · intro kvs ss vi now hsec hitems hcats
    have htr : truthy (.obj kvs) = true := by
      cases kvs with
      | nil => simp [assocFind] at hsec
      | cons a as => rfl
    simp only [Markets.extract_items_from_venue, htr, Bool.not_true,
      Bool.false_eq_true, if_false]
    simp only [pyGetD, hsec, hitems, Option.getD_some, Option.getD_none, ok_bind,
      pyIter, buildItemsDict, exList]
    apply exList_flatten_nil
    intro s hsmem
    have hs := hcats s hsmem
    cases s with
    | obj skvs =>
      have hnone : assocFind skvs "categories" = none := by
        simpa [sectionNoCategories, Option.isNone_iff_eq_none] using hs
      simp only [pyGetD, hnone, Option.getD_none, ok_bind, pyIter, exList,
        pure_bind2, List.flatten_nil]
      rfl
    | null => simp [sectionNoCategories] at hs
    | bool b => simp [sectionNoCategories] at hs
    | num q => simp [sectionNoCategories] at hs
    | str s2 => simp [sectionNoCategories] at hs
    | arr xs => simp [sectionNoCategories] at hs
  · intro kvs ss vi now hsec hitems
    have htr : truthy (.obj kvs) = true := by
      cases kvs with
      | nil => simp [assocFind] at hsec
      | cons a as => rfl
    simp only [Baku.extract_items_from_venue, htr, Bool.not_true,
      Bool.false_eq_true, if_false]
    simp only [pyGetD, hsec, Option.getD_some, ok_bind]
    cases ss with
    | nil => rfl
    | cons s0 srest =>
      simp only [truthy, List.isEmpty_cons, Bool.not_false, Bool.false_eq_true,
        if_false, pyIter, ok_bind]
      apply exList_flatten_nil
      intro s hsmem
      have hs := hitems s hsmem
      cases s with
      | obj skvs =>
        have hnone : assocFind skvs "items" = none := by
          simpa [sectionNoInlineItems, Option.isNone_iff_eq_none] using hs
        simp only [pyGetD, hnone, Option.getD_none, ok_bind, pyIter, exList]
      | null => simp [sectionNoInlineItems] at hs
      | bool b => simp [sectionNoInlineItems] at hs
      | num q => simp [sectionNoInlineItems] at hs
      | str s2 => simp [sectionNoInlineItems] at hs
      | arr xs => simp [sectionNoInlineItems] at hs

/-- Witness for the amended C1 at the two concrete documents: the Shape-A
normalizer returns the empty sequence on the Shape-B document, and the
Shape-B normalizer returns the empty sequence on the Shape-A document. -/
theorem C1_amended_witness :
    Markets.extract_items_from_venue docShapeB (.obj []) "t" = .ok [] ∧
    Baku.extract_items_from_venue docShapeA (.obj []) "t" = .ok [] := by
  constructor
  · exact C1_amended_no_detection.1
      [("sections", .arr [ .obj [("name", .str "Drinks"), ("slug", .str "drinks"),
        ("items", .arr [ .obj [("id", .str "i1"), ("name", .str "Beer"),
          ("price", .num 500)]])]])]
      [ .obj [("name", .str "Drinks"), ("slug", .str "drinks"),
        ("items", .arr [ .obj [("id", .str "i1"), ("name", .str "Beer"),
          ("price", .num 500)]])]]
      (.obj []) "t" rfl rfl (by decide)
  · exact C1_amended_no_detection.2
      [("items", .arr [ .obj [("id", .str "i1"), ("name", .str "Beer"),
        ("price", .num 500)]]),
       ("sections", .arr [ .obj [("name", .str "Drinks"), ("slug", .str "drinks"),
        ("categories", .arr [ .obj [("id", .str "c1"),
          ("item_ids", .arr [.str "i1"])]])]])]
      [ .obj [("name", .str "Drinks"), ("slug", .str "drinks"),
        ("categories", .arr [ .obj [("id", .str "c1"),
          ("item_ids", .arr [.str "i1"])]])]]
      (.obj []) "t" rfl (by decide)

/-!
Claim C10: totality over malformed input.  Missing optional fields are
handled by defaults, but normalization is not total: `markets.py` line 134
builds `{item['id']: item for item in all_items_data}`, so an item-pool
entry with no `id` key raises `KeyError`; likewise sub-objects of
unexpected type raise (`TypeError`/`AttributeError`).
-/

/-- C10 counterexample: on a document whose item pool has an entry with no
`id` key, `markets.py` normalization raises `KeyError` instead of yielding
empty or absent field values. -/
theorem C10_counterexample :
    Markets.extract_items_from_venue docNoId (.obj []) "t" = .error .keyError := rfl

theorem fTagsMarkets_absent {kvs : List (String × Json)}
    (h : assocFind kvs "tags" = none) :
    fTagsMarkets (.obj kvs) = .ok "" := by
  simp [fTagsMarkets, pyGetD, h, pyIter, ok_bind, pure, Except.pure, pyJoinStrs,
    pyStrList, String.intercalate]

theorem fDietaryMarkets_absent {kvs : List (String × Json)}
    (h : assocFind kvs "dietary_preferences" = none) :
    fDietaryMarkets (.obj kvs) = .ok "" := by
  simp [fDietaryMarkets, pyGetD, h, pyIter, ok_bind, pure, Except.pure, pyJoinStrs,
    pyStrList, String.intercalate]

/-- C10 as amended: normalization does read absent optional fields
defensively — for a dict item whose `price` is absent or numeric and whose
`original_price`, `unit_price`, `images`, `tags` and `dietary_preferences`
keys are absent, item extraction succeeds and the corresponding outputs are
the empty/absent defaults — but it is not total over arbitrary
malformation: a pool entry without an `id` key raises `KeyError` in
`markets.py` (the counterexample), and non-dict sub-objects raise.  Proved
for both scripts' item builders. -/
theorem C10_amended_defensive :
    (∀ (kvs vkvs : List (String × Json)) (ci sn ss : Json) (now : String),
      (assocFind kvs "price" = none ∨ ∃ p, assocFind kvs "price" = some (.num p)) →
      assocFind kvs "original_price" = none →
      assocFind kvs "unit_price" = none →
      assocFind kvs "images" = none →
      assocFind kvs "tags" = none →
      assocFind kvs "dietary_preferences" = none →
      ∃ it, mkItemA (.obj kvs) (.obj vkvs) ci sn ss now = .ok it ∧
        it.image_url = .str "" ∧ it.image_blurhash = .str "" ∧
        it.unit_price_value = none ∧ it.unit_price_base = none ∧
        it.unit_price_unit = .str "" ∧ it.original_price = none ∧
        it.tags = "" ∧ it.dietary_preferences = "") ∧
    (∀ (kvs vkvs : List (String × Json)) (sn ss : Json) (now : String),
      (assocFind kvs "price" = none ∨ ∃ p, assocFind kvs "price" = some (.num p)) →
      assocFind kvs "original_price" = none →
      assocFind kvs "unit_price" = none →
      assocFind kvs "images" = none →
      assocFind kvs "tags" = none →
      assocFind kvs "dietary_preferences" = none →
      ∃ it, mkItemB (.obj kvs) (.obj vkvs) sn ss now = .ok it ∧
        it.image_url = .str "" ∧ it.image_blurhash = .str "" ∧
        it.unit_price_value = none ∧ it.unit_price_base = none ∧
        it.unit_price_unit = .str "" ∧ it.original_price = none ∧
        it.tags = "" ∧ it.dietary_preferences = "") := by
  constructor
  · intro kvs vkvs ci sn ss now hprice horig hunit himg htags hdiet
    obtain ⟨q, hq⟩ : ∃ q, fPrice (.obj kvs) = .ok q := by
      rcases hprice with h | ⟨p, h⟩
      · exact ⟨0, fPrice_absent h⟩
      · exact ⟨p / 100, fPrice_num h⟩
    have h10 := fOriginalPrice_absent horig
    have h11 := fDiscountAmount_absent horig
    have h12 := fDiscountPercentage_absent horig
    have h14 := fUnitPriceValue_absent hunit
    have h15 := fUnitPriceBase_absent hunit
    have h16 := fUnitPriceUnit_absent hunit
    have h18 := fImageUrl_absent himg
    have h19 := fImageBlurhash_absent himg
    have h27 := fDietaryMarkets_absent hdiet
    have h28 := fTagsMarkets_absent htags
    have h29 := fIsAvailable_obj kvs
    obtain ⟨it, hit⟩ :
        ∃ it, mkItemA (.obj kvs) (.obj vkvs) ci sn ss now = .ok it := by
      simp only [mkItemA, pyGetD, ok_bind, hq, h10, h11, h12, h14, h15, h16,
        h18, h19, h27, h28, h29]
      exact ⟨_, rfl⟩
    obtain ⟨-, hB10, -, -, hB14, hB15, hB16, hB18, hB19, hB27, hB28, -, -⟩ :=
      mkItemA_ok hit
    rw [h18] at hB18
    rw [h19] at hB19
    rw [h14] at hB14
    rw [h15] at hB15
    rw [h16] at hB16
    rw [h10] at hB10
    rw [h28] at hB28
    rw [h27] at hB27
    exact ⟨it, hit, (Except.ok.inj hB18).symm, (Except.ok.inj hB19).symm,
      (Except.ok.inj hB14).symm, (Except.ok.inj hB15).symm,
      (Except.ok.inj hB16).symm, (Except.ok.inj hB10).symm,
      (Except.ok.inj hB28).symm, (Except.ok.inj hB27).symm⟩
  · intro kvs vkvs sn ss now hprice horig hunit himg htags hdiet
    obtain ⟨q, hq⟩ : ∃ q, fPrice (.obj kvs) = .ok q := by
      rcases hprice with h | ⟨p, h⟩
      · exact ⟨0, fPrice_absent h⟩
      · exact ⟨p / 100, fPrice_num h⟩
    have h10 := fOriginalPrice_absent horig
    have h11 := fDiscountAmount_absent horig
    have h12 := fDiscountPercentage_absent horig
    have h14 := fUnitPriceValue_absent hunit
    have h15 := fUnitPriceBase_absent hunit
    have h16 := fUnitPriceUnit_absent hunit
    have h18 := fImageUrl_absent himg
    have h19 := fImageBlurhash_absent himg
    have h27 := fDietaryBaku_absent hdiet
    have h28 := fTagsBaku_absent htags
    have h29 := fIsAvailable_obj kvs
    obtain ⟨it, hit⟩ :
        ∃ it, mkItemB (.obj kvs) (.obj vkvs) sn ss now = .ok it := by
      simp only [mkItemB, pyGetD, ok_bind, hq, h10, h11, h12, h14, h15, h16,
        h18, h19, h27, h28, h29]
      exact ⟨_, rfl⟩
    obtain ⟨-, hB10, -, -, hB14, hB15, hB16, hB18, hB19, hB27, hB28, -, -⟩ :=
      mkItemB_ok hit
    rw [h18] at hB18
    rw [h19] at hB19
    rw [h14] at hB14
    rw [h15] at hB15
    rw [h16] at hB16
    rw [h10] at hB10
    rw [h28] at hB28
    rw [h27] at hB27
    exact ⟨it, hit, (Except.ok.inj hB18).symm, (Except.ok.inj hB19).symm,
      (Except.ok.inj hB14).symm, (Except.ok.inj hB15).symm,
      (Except.ok.inj hB16).symm, (Except.ok.inj hB10).symm,
      (Except.ok.inj hB28).symm, (Except.ok.inj hB27).symm⟩

/-- Witness for the amended C10 at the fully-empty item dict: extraction
succeeds in both scripts and every optional output takes its empty/absent
default. -/
theorem C10_amended_witness :
    ((mkItemA (.obj []) (.obj []) (.str "") (.str "") (.str "") "t").map
      (fun it => (it.image_url, it.unit_price_value, it.original_price, it.tags))
        = .ok (.str "", none, none, "")) ∧
    ((mkItemB (.obj []) (.obj []) (.str "") (.str "") "t").map
      (fun it => (it.image_url, it.unit_price_value, it.original_price, it.tags))
        = .ok (.str "", none, none, "")) := by
  constructor
  · obtain ⟨it, hit, p1, p2, p3, p4, p5, p6, p7, p8⟩ :=
      C10_amended_defensive.1 [] [] (.str "") (.str "") (.str "") "t"
        (Or.inl rfl) rfl rfl rfl rfl rfl
    rw [hit]
    simp only [Except.map]
    rw [p1, p3, p6, p7]
  · obtain ⟨it, hit, p1, p2, p3, p4, p5, p6, p7, p8⟩ :=
      C10_amended_defensive.2 [] [] (.str "") (.str "") "t"
        (Or.inl rfl) rfl rfl rfl rfl rfl
    rw [hit]
    simp only [Except.map]
    rw [p1, p3, p6, p7]
